import Mathlib

/-!
Verification development for the distributed point-store core of the
repository (main source file:
src/fastlib/trunk/contrib/dongryel/thesis_research/core/table/distributed_table.h).

The C++ class core::table::DistributedTable is shallowly embedded below:
offset pointers (boost::interprocess::offset_ptr, NULL-initialised) become
Option values, the owned table becomes a list of points, communicators
become records carrying a rank and a size, and MPI traffic performed by a
member function is reified as an explicit list of events so that theorems
can speak about which messages a call sends and receives and in which
order.  Machine int fields are modelled as Int.
-/

/-- A dense point: a fixed-length numeric vector.  The numeric attribute
values themselves are irrelevant to every property proved here, so they
are abstracted as integers. -/
structure DensePoint where
  attrs : List Int
deriving DecidableEq

/-- The locally owned partition table (core/table/table.h is not under
src/; only the fields the facade reads are modelled: the ordered list of
owned points). -/
structure Table where
  points : List DensePoint
deriving DecidableEq

def Table.empty : Table := ⟨[]⟩

/-- Table::n_entries: the number of points in the partition. -/
def Table.n_entries (tbl : Table) : Nat := tbl.points.length

/-- Table::n_attributes: the attribute count shared by all points. -/
def Table.n_attributes (tbl : Table) : Nat := (tbl.points.headD ⟨[]⟩).attrs.length

/-- The error taxonomy of the spec that the embedded operations report. -/
inductive TableError
  | InvalidRank
  | IndexOutOfRange
deriving DecidableEq

/-- Modelled from the spec: Table::get (core/table/table.h, which is not
under src/) returns the point at point_id by reference; the spec states
that point_id is validated against the interval from 0 inclusive to
EntryCount() exclusive before any dereference and that an out-of-range id
is reported as IndexOutOfRange, never silently clamped. -/
def Table.get (tbl : Table) (point_id : Int) : Except TableError DensePoint :=
  if 0 ≤ point_id ∧ point_id < (tbl.n_entries : Int) then
    .ok (tbl.points.getD point_id.toNat ⟨[]⟩)
  else
    .error .IndexOutOfRange

/-- The client-side mailbox TableOutbox (core/table/mailbox.h is not under
src/); the facade stores only a handle to it and never reads its state, so
it is modelled as an empty record. -/
structure TableOutbox where
deriving DecidableEq

/-- The server-side mailbox TableInbox (core/table/mailbox.h is not under
src/).  Modelled from the spec: it holds the attribute count it was
initialised with and a staging buffer of fetched points keyed by a pair of
ranks/ids; the facade reads a staged point through get_point. -/
structure TableInbox where
  n_attributes_ : Int
  staged : List ((Int × Int) × DensePoint)
deriving DecidableEq

/-- TableInbox::get_point(rank, point_id): the staged point for the given
key (modelled from the spec; the staging itself is done by the inbox serve
loop, outside this facade). -/
def TableInbox.get_point (b : TableInbox) (rank point_id : Int) : DensePoint :=
  ((b.staged.find? (fun e => e.1 = (rank, point_id))).map Prod.snd).getD ⟨[]⟩

/-- The spatial index tree node type (core/tree/gen_metric_tree.h is not
under src/).  No operation in distributed_table.h ever constructs one
(IndexData has an empty body), so an opaque one-constructor type
suffices. -/
inductive TreeType
  | mk
deriving DecidableEq

/-- A boost::mpi::communicator, reduced to what distributed_table.h
reads from it: this process's rank and the group size. -/
structure Communicator where
  rank : Int
  size : Int
deriving DecidableEq

/-- The message tags of core/table/distributed_table_message.h used by
DistributedTable::get (the header is not under src/; only the two
tag names referenced by the facade are needed, as distinct
constructors). -/
inductive DistributedTableMessage
  | REQUEST_POINT_FROM_TABLE_OUTBOX
  | RECEIVE_POINT_FROM_TABLE_INBOX
deriving DecidableEq

/-- core::table::PointRequestMessage (point_request_message.h is not under
src/): per the spec, a FetchRequest carries the requesting rank and the
point id. -/
structure PointRequestMessage where
  source_rank : Int
  point_id : Int
deriving DecidableEq

/-- Which of the two disjoint communicators a message operation uses. -/
inductive CommId
  | outboxGroup
  | inboxGroup
deriving DecidableEq

/-- One observable action of DistributedTable::get, in program order:
a send on a communicator, a blocking receive on a communicator, or the
aliasing of a staged inbox buffer into the out-parameter. -/
inductive Event
  | send (comm : CommId) (dest : Int) (tag : DistributedTableMessage)
      (msg : PointRequestMessage)
  | recv (comm : CommId) (src : Int) (tag : DistributedTableMessage)
  | aliasStaged (rank : Int) (point_id : Int)
deriving DecidableEq

/-- Whether an event is message traffic on a communicator (send or
receive), as opposed to a purely local action. -/
def Event.isMessage : Event → Bool
  | .send _ _ _ _ => true
  | .recv _ _ _ => true
  | .aliasStaged _ _ => false

/-- The DistributedTable facade.  Each offset_ptr field becomes an Option
(none is the NULL sentinel); the gathered per-rank entry-count array
becomes a list of Int. -/
structure DistributedTable where
  table_inbox_ : Option TableInbox
  table_outbox_ : Option TableOutbox
  owned_table_ : Option Table
  local_n_entries_ : Option (List Int)
  global_tree_ : Option TreeType
  table_outbox_group_comm_size_ : Int
deriving DecidableEq

/-- The default constructor DistributedTable(): every handle is NULL and
the recorded communicator size is -1. -/
def DistributedTable.defaultConstructed : DistributedTable :=
  { table_inbox_ := none
    table_outbox_ := none
    owned_table_ := none
    local_n_entries_ := none
    global_tree_ := none
    table_outbox_group_comm_size_ := -1 }

/-- DistributedTable::IsIndexed(): true iff the global tree pointer is
non-NULL. -/
def DistributedTable.IsIndexed (t : DistributedTable) : Bool :=
  t.global_tree_.isSome

/-- DistributedTable::get_tree(): the (possibly NULL) tree root. -/
def DistributedTable.get_tree (t : DistributedTable) : Option TreeType :=
  t.global_tree_

/-- DistributedTable::local_n_entries(rank_in).  The C++ returns int and
signals a bad rank by printing an Invalid-rank diagnostic and returning
the sentinel -1 instead of an entry count; that error path is modelled as
the Except error value, the normal path as ok of the gathered array entry.
(A negative rank_in passes the C++ check and indexes the array out of
bounds, which is undefined behaviour; no claim quantifies over negative
ranks, and toNat maps them to index 0 here.) -/
def DistributedTable.local_n_entriesAt (t : DistributedTable) (rank_in : Int) :
    Except TableError Int :=
  if t.table_outbox_group_comm_size_ ≤ rank_in then
    .error .InvalidRank
  else
    .ok ((t.local_n_entries_.getD []).getD rank_in.toNat 0)

/-- DistributedTable::Init(file_name, table_outbox_group_communicator_in).
Loading the file into the owned table (Table::Init, not under src/) and
the boost::mpi::all_gather collective both need a global view, so Init is
parameterised by worldTables, the table each rank of the communicator
loaded; this process is rank, its communicator size is the length of
worldTables, and the all-gather fills the entry-count array with every
rank's n_entries() in rank order. -/
def DistributedTable.Init (t : DistributedTable) (worldTables : List Table)
    (rank : Nat) : DistributedTable :=
  let owned := worldTables.getD rank Table.empty
  { t with
    owned_table_ := some owned
    table_outbox_ := some ⟨⟩
    table_inbox_ := some { n_attributes_ := (owned.n_attributes : Int), staged := [] }
    table_outbox_group_comm_size_ := (worldTables.length : Int)
    local_n_entries_ := some (worldTables.map (fun tbl => (tbl.n_entries : Int))) }

/-- DistributedTable::Save(file_name): the body is empty in the source, so
the member function leaves the object unchanged and performs nothing. -/
def DistributedTable.Save (t : DistributedTable) (file_name : String) :
    DistributedTable :=
  let _ := file_name
  t

/-- A placeholder for core::metric_kernels::AbstractMetric, which
IndexData receives and ignores. -/
structure AbstractMetric where
deriving DecidableEq

/-- DistributedTable::IndexData(metric_in, sample_probability_in): the
body is empty in the source, so the member function leaves the object
unchanged (double is modelled as Rat; both parameters are unused). -/
def DistributedTable.IndexData (t : DistributedTable) (metric_in : AbstractMetric)
    (sample_probability_in : Rat) : DistributedTable :=
  let _ := metric_in
  let _ := sample_probability_in
  t

/-- The cache-lookup condition of the second branch of
DistributedTable::get; in the source it is the literal false
(else if(false)). -/
def DistributedTable.cacheHit : Bool := false

/-- DistributedTable::get(table_outbox_group_comm_in,
table_inbox_group_comm_in, requested_rank, point_id, entry).  Returns the
list of events the call performs in program order together with the final
value of the out-parameter entry (entry is the incoming value, returned
unchanged by the empty cache branch).  Branches, as in the source:
if the outbox communicator rank equals requested_rank, read the point from
the owned table with no events; else if cacheHit (literally false), do
nothing; else send a PointRequestMessage carrying the own rank and the
point id to requested_rank on the outbox communicator tagged
REQUEST_POINT_FROM_TABLE_OUTBOX, block receiving on the inbox communicator
from the own rank tagged RECEIVE_POINT_FROM_TABLE_INBOX, then alias the
staged inbox buffer for (requested_rank, point_id). -/
def DistributedTable.get (t : DistributedTable)
    (table_outbox_group_comm_in table_inbox_group_comm_in : Communicator)
    (requested_rank point_id : Int)
    (entry : Option (Except TableError DensePoint)) :
    List Event × Option (Except TableError DensePoint) :=
  let _ := table_inbox_group_comm_in
  if table_outbox_group_comm_in.rank = requested_rank then
    ([], some ((t.owned_table_.getD Table.empty).get point_id))
  else if DistributedTable.cacheHit then
    ([], entry)
  else
    ([Event.send CommId.outboxGroup requested_rank
        DistributedTableMessage.REQUEST_POINT_FROM_TABLE_OUTBOX
        ⟨table_outbox_group_comm_in.rank, point_id⟩,
      Event.recv CommId.inboxGroup table_outbox_group_comm_in.rank
        DistributedTableMessage.RECEIVE_POINT_FROM_TABLE_INBOX,
      Event.aliasStaged requested_rank point_id],
     some (.ok ((t.table_inbox_.getD ⟨0, []⟩).get_point requested_rank point_id)))

/-- The five components the destructor may free, named after the comment
blocks of the source. -/
inductive Component
  | outbox
  | inbox
  | entryCountArray
  | ownedTable
  | tree
deriving DecidableEq

/-- The destructor of DistributedTable.  Each block of the source tests
its handle against NULL, frees it (DestroyPtr, Deallocate or delete: all
modelled as one free event), and resets the handle to NULL; the blocks run
in source order: outbox, inbox, entry-count array, owned table, tree.
Returns the free events in order and the post-destruction state. -/
def DistributedTable.destructor (t : DistributedTable) :
    List Component × DistributedTable :=
  ((if t.table_outbox_.isSome then [Component.outbox] else []) ++
   (if t.table_inbox_.isSome then [Component.inbox] else []) ++
   (if t.local_n_entries_.isSome then [Component.entryCountArray] else []) ++
   (if t.owned_table_.isSome then [Component.ownedTable] else []) ++
   (if t.global_tree_.isSome then [Component.tree] else []),
   { t with
     table_outbox_ := none
     table_inbox_ := none
     local_n_entries_ := none
     owned_table_ := none
     global_tree_ := none })

/-! ## Theorems -/

/-- C3: for every call to get where requested_rank equals the calling
process's rank on the outbox communicator, the out-parameter is filled
directly from the locally owned table and the call performs no send or
receive on any communicator. -/
theorem get_local_no_messages (t : DistributedTable) (tbl : Table)
    (outC inC : Communicator) (requested_rank point_id : Int)
    (entry : Option (Except TableError DensePoint))
    (hown : t.owned_table_ = some tbl)
    (hrank : requested_rank = outC.rank) :
    (t.get outC inC requested_rank point_id entry).2 = some (tbl.get point_id) ∧
    ((t.get outC inC requested_rank point_id entry).1.filter Event.isMessage) = [] := by
  subst hrank
  simp [DistributedTable.get, hown]

/-- Witness for C3 at a concrete one-process table owning one point. -/
theorem get_local_no_messages_witness :
    (DistributedTable.get
        ⟨some ⟨2, []⟩, some ⟨⟩, some ⟨[⟨[5, 6]⟩]⟩, some [1], none, 1⟩
        ⟨0, 1⟩ ⟨0, 1⟩ 0 0 none).2 = some (Table.get ⟨[⟨[5, 6]⟩]⟩ 0) ∧
    ((DistributedTable.get
        ⟨some ⟨2, []⟩, some ⟨⟩, some ⟨[⟨[5, 6]⟩]⟩, some [1], none, 1⟩
        ⟨0, 1⟩ ⟨0, 1⟩ 0 0 none).1.filter Event.isMessage) = [] :=
  get_local_no_messages _ ⟨[⟨[5, 6]⟩]⟩ ⟨0, 1⟩ ⟨0, 1⟩ 0 0 none rfl rfl

/-- C4: for every rank at or above the recorded communicator-group size,
local_n_entries reports the InvalidRank error (in the C++ source: prints
the Invalid-rank diagnostic and returns the sentinel -1) instead of
returning an entry count. -/
theorem local_n_entries_invalid_rank (t : DistributedTable) (rank_in : Int)
    (h : t.table_outbox_group_comm_size_ ≤ rank_in) :
    t.local_n_entriesAt rank_in = .error .InvalidRank := by
  simp [DistributedTable.local_n_entriesAt, h]

/-- Witness for C4: a one-process table rejects rank 1. -/
theorem local_n_entries_invalid_rank_witness :
    (DistributedTable.defaultConstructed.Init [Table.empty] 0).local_n_entriesAt 1 =
      .error .InvalidRank :=
  local_n_entries_invalid_rank _ 1 (by decide)

/-- C9: Save is a no-op: for every table state and file name it leaves the
table, and in particular each of its five component handles, unchanged. -/
theorem save_is_noop (t : DistributedTable) (file_name : String) :
    t.Save file_name = t ∧
    (t.Save file_name).table_inbox_ = t.table_inbox_ ∧
    (t.Save file_name).table_outbox_ = t.table_outbox_ ∧
    (t.Save file_name).owned_table_ = t.owned_table_ ∧
    (t.Save file_name).local_n_entries_ = t.local_n_entries_ ∧
    (t.Save file_name).global_tree_ = t.global_tree_ :=
  ⟨rfl, rfl, rfl, rfl, rfl, rfl⟩

/-- C8: the cache branch of get is guarded by the literal false, so it is
never taken: for every state of the table (in particular one whose inbox
already holds a staged copy of the requested point) and every request for
a point of another rank, the request message is sent and the blocking
acknowledgment receive is performed. -/
theorem cache_branch_never_taken (t : DistributedTable)
    (outC inC : Communicator) (requested_rank point_id : Int)
    (entry : Option (Except TableError DensePoint))
    (h : outC.rank ≠ requested_rank) :
    DistributedTable.cacheHit = false ∧
    Event.send CommId.outboxGroup requested_rank
        DistributedTableMessage.REQUEST_POINT_FROM_TABLE_OUTBOX
        ⟨outC.rank, point_id⟩ ∈ (t.get outC inC requested_rank point_id entry).1 ∧
    Event.recv CommId.inboxGroup outC.rank
        DistributedTableMessage.RECEIVE_POINT_FROM_TABLE_INBOX
        ∈ (t.get outC inC requested_rank point_id entry).1 := by
  refine ⟨rfl, ?_, ?_⟩ <;>
    simp [DistributedTable.get, DistributedTable.cacheHit, h]

/-- Witness for C8: rank 0 fetching point 7 of rank 1, with the pair
already staged in the local inbox, still performs the exchange. -/
theorem cache_branch_never_taken_witness :
    DistributedTable.cacheHit = false ∧
    Event.send CommId.outboxGroup 1
        DistributedTableMessage.REQUEST_POINT_FROM_TABLE_OUTBOX ⟨0, 7⟩ ∈
      (DistributedTable.get
        ⟨some ⟨2, [((1, 7), ⟨[3, 4]⟩)]⟩, some ⟨⟩, some Table.empty, some [0, 1], none, 2⟩
        ⟨0, 2⟩ ⟨0, 2⟩ 1 7 none).1 ∧
    Event.recv CommId.inboxGroup 0
        DistributedTableMessage.RECEIVE_POINT_FROM_TABLE_INBOX ∈
      (DistributedTable.get
        ⟨some ⟨2, [((1, 7), ⟨[3, 4]⟩)]⟩, some ⟨⟩, some Table.empty, some [0, 1], none, 2⟩
        ⟨0, 2⟩ ⟨0, 2⟩ 1 7 none).1 :=
  cache_branch_never_taken _ ⟨0, 2⟩ ⟨0, 2⟩ 1 7 none (by decide)

/-- Reading a list of integers back entry by entry over the indices of its
range reproduces the list. -/
theorem map_getD_range_eq (l : List Int) :
    (List.range l.length).map (fun r => l.getD r 0) = l := by
  induction l with
  | nil => rfl
  | cons a l ih =>
    rw [List.length_cons, List.range_succ_eq_map, List.map_cons, List.map_map]
    refine congrArg (List.cons a) ?_
    have hcomp : ((fun r => (a :: l).getD r 0) ∘ Nat.succ) = fun r => l.getD r 0 :=
      funext fun r => rfl
    rw [hcomp, ih]

/-- C7: after the all-gather of Init, the per-rank entry counts summed
over all ranks of the communicator group equal the total number of points
loaded across all partitions, for every distribution of partition sizes
(in particular a single process, or one process owning every point). -/
theorem init_entry_counts_sum (t : DistributedTable) (worldTables : List Table)
    (rank : Nat) :
    ((List.range worldTables.length).map
        (fun r : Nat => ((t.Init worldTables rank).local_n_entriesAt (r : Int)).toOption.getD 0)).sum
      = (worldTables.map (fun tbl => (tbl.n_entries : Int))).sum := by
  have h1 : ∀ r ∈ List.range worldTables.length,
      ((t.Init worldTables rank).local_n_entriesAt (r : Int)).toOption.getD 0 =
        (worldTables.map (fun tbl => (tbl.n_entries : Int))).getD r 0 := by
    intro r hr
    rw [List.mem_range] at hr
    have hcond : ¬ (worldTables.length ≤ r) := Nat.not_le.mpr hr
    simp [DistributedTable.local_n_entriesAt, DistributedTable.Init, Except.toOption, hcond]
  rw [List.map_congr_left h1]
  have hlen : worldTables.length =
      (worldTables.map (fun tbl => (tbl.n_entries : Int))).length := by simp
  rw [hlen, map_getD_range_eq]

/-- C10: each block of the destructor is guarded by a NULL check — a
component is freed exactly when its handle is non-NULL — every handle is
NULL afterwards, and destroying a default-constructed table on which Init
never ran frees nothing. -/
theorem destructor_guarded_and_nulls :
    (DistributedTable.defaultConstructed.destructor).1 = [] ∧
    (∀ t : DistributedTable,
      ((t.destructor).2.table_outbox_ = none ∧
       (t.destructor).2.table_inbox_ = none ∧
       (t.destructor).2.local_n_entries_ = none ∧
       (t.destructor).2.owned_table_ = none ∧
       (t.destructor).2.global_tree_ = none) ∧
      ((Component.outbox ∈ (t.destructor).1 ↔ t.table_outbox_.isSome) ∧
       (Component.inbox ∈ (t.destructor).1 ↔ t.table_inbox_.isSome) ∧
       (Component.entryCountArray ∈ (t.destructor).1 ↔ t.local_n_entries_.isSome) ∧
       (Component.ownedTable ∈ (t.destructor).1 ↔ t.owned_table_.isSome) ∧
       (Component.tree ∈ (t.destructor).1 ↔ t.global_tree_.isSome))) := by
  refine ⟨rfl, fun t => ⟨⟨rfl, rfl, rfl, rfl, rfl⟩, ?_⟩⟩
  obtain ⟨ib, ob, ot, ln, gt, sz⟩ := t
  cases ib <;> cases ob <;> cases ot <;> cases ln <;> cases gt <;>
    simp [DistributedTable.destructor]

/-- C1 counterexample: on a freshly initialised one-process table, calling
IndexData does not make IsIndexed true and does not make get_tree
non-null — the IndexData body is empty in the source, so the tree pointer
stays NULL. -/
theorem index_data_counterexample :
    (((DistributedTable.defaultConstructed.Init [Table.empty] 0).IndexData
        ⟨⟩ 0).IsIndexed = false) ∧
    (((DistributedTable.defaultConstructed.Init [Table.empty] 0).IndexData
        ⟨⟩ 0).get_tree = none) :=
  ⟨rfl, rfl⟩

/-- C1 amended: after Init and before IndexData, IsIndexed is false; and
because IndexData is an unimplemented stub with an empty body, after a
call to IndexData the table is unchanged, IsIndexed is still false and
get_tree is still null. -/
theorem index_data_stub (t0 : DistributedTable) (worldTables : List Table)
    (rank : Nat) (m : AbstractMetric) (p : Rat)
    (h : t0.global_tree_ = none) :
    (t0.Init worldTables rank).IsIndexed = false ∧
    ((t0.Init worldTables rank).IndexData m p).IsIndexed = false ∧
    ((t0.Init worldTables rank).IndexData m p).get_tree = none := by
  refine ⟨?_, ?_, ?_⟩ <;>
    simp [DistributedTable.Init, DistributedTable.IndexData,
      DistributedTable.IsIndexed, DistributedTable.get_tree, h]

/-- Witness for the amended C1 on a default-constructed table initialised
over one process. -/
theorem index_data_stub_witness :
    (DistributedTable.defaultConstructed.Init [Table.empty] 0).IsIndexed = false ∧
    ((DistributedTable.defaultConstructed.Init [Table.empty] 0).IndexData
        ⟨⟩ 0).IsIndexed = false ∧
    ((DistributedTable.defaultConstructed.Init [Table.empty] 0).IndexData
        ⟨⟩ 0).get_tree = none :=
  index_data_stub DistributedTable.defaultConstructed [Table.empty] 0 ⟨⟩ 0 rfl

/-- C2 counterexample: rank 0 fetching point 7 owned by rank 1 does not
perform the event sequence the claim states — the blocking receive of the
acknowledgment is posted with source rank 1 (the owner) per the claim, but
the source actually receives from rank 0, the calling process's own
rank. -/
theorem get_remote_recv_source_counterexample :
    (DistributedTable.defaultConstructed.get ⟨0, 2⟩ ⟨0, 2⟩ 1 7 none).1 ≠
      [Event.send CommId.outboxGroup 1
          DistributedTableMessage.REQUEST_POINT_FROM_TABLE_OUTBOX ⟨0, 7⟩,
        Event.recv CommId.inboxGroup 1
          DistributedTableMessage.RECEIVE_POINT_FROM_TABLE_INBOX,
        Event.aliasStaged 1 7] := by
  decide

/-- C2 amended: for every get of a point of another rank, the call sends a
PointRequestMessage carrying the calling rank and the point id to the
owner rank on the outbox communicator tagged
REQUEST_POINT_FROM_TABLE_OUTBOX, then blocks receiving the acknowledgment
on the inbox communicator tagged RECEIVE_POINT_FROM_TABLE_INBOX from the
calling process's own rank (not from the owner rank), and only after that
aliases the staged inbox buffer into the out-parameter. -/
theorem get_remote_protocol (t : DistributedTable)
    (outC inC : Communicator) (requested_rank point_id : Int)
    (entry : Option (Except TableError DensePoint))
    (h : requested_rank ≠ outC.rank) :
    (t.get outC inC requested_rank point_id entry).1 =
      [Event.send CommId.outboxGroup requested_rank
          DistributedTableMessage.REQUEST_POINT_FROM_TABLE_OUTBOX
          ⟨outC.rank, point_id⟩,
        Event.recv CommId.inboxGroup outC.rank
          DistributedTableMessage.RECEIVE_POINT_FROM_TABLE_INBOX,
        Event.aliasStaged requested_rank point_id] ∧
    (t.get outC inC requested_rank point_id entry).2 =
      some (.ok ((t.table_inbox_.getD ⟨0, []⟩).get_point requested_rank point_id)) := by
  have hne : ¬ (outC.rank = requested_rank) := fun hh => h hh.symm
  constructor <;> simp [DistributedTable.get, DistributedTable.cacheHit, hne]

/-- Witness for the amended C2: rank 0 fetching point 7 owned by rank 1. -/
theorem get_remote_protocol_witness :
    (DistributedTable.defaultConstructed.get ⟨0, 2⟩ ⟨0, 2⟩ 1 7 none).1 =
      [Event.send CommId.outboxGroup 1
          DistributedTableMessage.REQUEST_POINT_FROM_TABLE_OUTBOX ⟨0, 7⟩,
        Event.recv CommId.inboxGroup 0
          DistributedTableMessage.RECEIVE_POINT_FROM_TABLE_INBOX,
        Event.aliasStaged 1 7] ∧
    (DistributedTable.defaultConstructed.get ⟨0, 2⟩ ⟨0, 2⟩ 1 7 none).2 =
      some (.ok ((DistributedTable.defaultConstructed.table_inbox_.getD
        ⟨0, []⟩).get_point 1 7)) :=
  get_remote_protocol DistributedTable.defaultConstructed ⟨0, 2⟩ ⟨0, 2⟩ 1 7 none
    (by decide)

/-- C6 counterexample: on a fully initialised and indexed table the
destructor does not free the components in the order the claim states
(Inbox first, then Outbox): the source frees the Outbox before the
Inbox. -/
theorem teardown_order_counterexample :
    ((⟨some ⟨0, []⟩, some ⟨⟩, some Table.empty, some [0], some TreeType.mk, 1⟩ :
        DistributedTable).destructor).1 ≠
      [Component.inbox, Component.outbox, Component.entryCountArray,
        Component.ownedTable, Component.tree] := by
  decide

/-- C6 amended: the destructor releases the components in the order
Outbox first, then Inbox, then the entry-count array, then the owned
partition table, then the spatial index tree; in particular the Inbox is
destroyed before its backing partition, so at no point during teardown is
an Inbox still alive after the partition has been freed. -/
theorem teardown_order (t : DistributedTable)
    (h1 : t.table_outbox_.isSome) (h2 : t.table_inbox_.isSome)
    (h3 : t.local_n_entries_.isSome) (h4 : t.owned_table_.isSome)
    (h5 : t.global_tree_.isSome) :
    (t.destructor).1 = [Component.outbox, Component.inbox,
      Component.entryCountArray, Component.ownedTable, Component.tree] ∧
    (t.destructor).1.indexOf Component.inbox <
      (t.destructor).1.indexOf Component.ownedTable := by
  have e : (t.destructor).1 = [Component.outbox, Component.inbox,
      Component.entryCountArray, Component.ownedTable, Component.tree] := by
    simp [DistributedTable.destructor, h1, h2, h3, h4, h5]
  refine ⟨e, ?_⟩
  rw [e]
  decide

/-- Witness for the amended C6 on a concrete fully populated table. -/
theorem teardown_order_witness :
    ((⟨some ⟨0, []⟩, some ⟨⟩, some Table.empty, some [0], some TreeType.mk, 1⟩ :
        DistributedTable).destructor).1 = [Component.outbox, Component.inbox,
      Component.entryCountArray, Component.ownedTable, Component.tree] ∧
    ((⟨some ⟨0, []⟩, some ⟨⟩, some Table.empty, some [0], some TreeType.mk, 1⟩ :
        DistributedTable).destructor).1.indexOf Component.inbox <
      ((⟨some ⟨0, []⟩, some ⟨⟩, some Table.empty, some [0], some TreeType.mk, 1⟩ :
        DistributedTable).destructor).1.indexOf Component.ownedTable :=
  teardown_order _ rfl rfl rfl rfl rfl

/-- C5: every point id outside the partition bounds — below 0 or at or
above the entry count, in particular the first out-of-range id equal to
the entry count — is rejected by the validated table read with
IndexOutOfRange, and a local get of such an id through the facade fills
the out-parameter with that error, never with data. -/
theorem point_id_validated (t : DistributedTable) (tbl : Table)
    (outC inC : Communicator) (point_id : Int)
    (entry : Option (Except TableError DensePoint))
    (hown : t.owned_table_ = some tbl)
    (hout : point_id < 0 ∨ (tbl.n_entries : Int) ≤ point_id) :
    Table.get tbl point_id = .error .IndexOutOfRange ∧
    (t.get outC inC outC.rank point_id entry).2 =
      some (.error TableError.IndexOutOfRange) := by
  have hg : Table.get tbl point_id = .error .IndexOutOfRange := by
    rw [Table.get, if_neg]
    intro hc
    rcases hout with hlt | hge
    · omega
    · omega
  refine ⟨hg, ?_⟩
  simp [DistributedTable.get, hown, hg]

/-- Witness for C5: the first out-of-range id (0, on an empty one-point
partition of size 0) is rejected. -/
theorem point_id_validated_witness :
    Table.get Table.empty 0 = .error .IndexOutOfRange ∧
    (DistributedTable.get
        ⟨some ⟨0, []⟩, some ⟨⟩, some Table.empty, some [0], none, 1⟩
        ⟨0, 1⟩ ⟨0, 1⟩ 0 0 none).2 =
      some (.error TableError.IndexOutOfRange) :=
  point_id_validated _ Table.empty ⟨0, 1⟩ ⟨0, 1⟩ 0 none rfl (Or.inr (by decide))
